import Mathlib

/-!
Shallow embedding of the marker-template and reconciliation core of
`the_dega_template_full.py` (DaVinci Resolve automation scripts).

Modelling conventions:
- Python floats are modelled as exact rationals (`ℚ`); `round` is Python's
  banker's rounding (round-half-to-even), modelled by `_py_round`.
- Python strings are modelled as `String`; `s.lower()` as an ASCII
  character-wise `Char.toLower` map, `p in s` as substring search on the
  character list, `s.startswith(p)` as a character-list prefix test.
- The stateful Resolve host API is modelled by explicit oracle records:
  each host call site is a function of the oracle, and the calls a code
  path issues are collected in an explicit trace.
-/

/-- A marker spec: the dict produced by `_mm` in the source
(keys `t`, `color`, `name`, `dur`, `notes`). -/
structure Marker where
  t : ℚ
  color : String
  name : String
  dur : ℚ
  notes : String
deriving DecidableEq

/-- Constructor `_mm(when, color, name, dur, notes)` from the source. -/
def _mm (t : ℚ) (color name : String) (dur : ℚ) (notes : String) : Marker :=
  ⟨t, color, name, dur, notes⟩

/-- Constructor `_mp(t, color, name, notes, dur=0.0)`: alias of `_mm` with the
last two parameters swapped (source line 888). Call sites always pass `dur`
explicitly here, `0` standing for the Python default. -/
def _mp (t : ℚ) (color name notes : String) (dur : ℚ) : Marker :=
  _mm t color name dur notes

/-- The supported-marker-color set `_SUPPORTED_MARKER_COLORS` (source lines 169-180). -/
def _SUPPORTED_MARKER_COLORS : List String :=
  ["Red", "Yellow", "Green", "Cyan", "Blue", "Purple", "Pink", "Black", "White", "Orange"]

/-- The color-fallback dict `_COLOR_FALLBACK = {"Magenta": "Pink", "Orange": "Yellow"}`
(source line 181), as a `get` returning `none` off the dict. -/
def _COLOR_FALLBACK (c : String) : Option String :=
  if c = "Magenta" then some "Pink"
  else if c = "Orange" then some "Yellow"
  else none

/-- Floor of a rational (Python float→int floor), computed with Euclidean
integer division so that it is kernel-computable. -/
def _py_floor (q : ℚ) : ℤ :=
  Int.ediv q.num (q.den : ℤ)

/-- Python's built-in `round` on an exact rational: round half to even. -/
def _py_round (q : ℚ) : ℤ :=
  let f := _py_floor q
  let r := q - (f : ℚ)
  if r < 1/2 then f
  else if 1/2 < r then f + 1
  else if f % 2 = 0 then f else f + 1

/-- Python string `.lower()` followed by the em-dash/en-dash normalisation
used by the title classifiers; both `.replace` patterns are single
characters, so the whole normalisation is a character map. -/
def _lower_chars (s : List Char) : List Char :=
  s.map Char.toLower

/-- Python `p in s` (substring containment) on character lists. -/
def _substr_aux (pat : List Char) : List Char → Bool
  | [] => pat.isEmpty
  | c :: cs => pat.isPrefixOf (c :: cs) || _substr_aux pat cs

/-- Python `pat in s` on strings. -/
def strContains (s pat : String) : Bool :=
  _substr_aux pat.data s.data

/-- Python `s.startswith(pat)`. -/
def strStarts (s pat : String) : Bool :=
  pat.data.isPrefixOf s.data

/-- Python `s.lower()` as a string map. -/
def strLower (s : String) : String :=
  ⟨_lower_chars s.data⟩

/-- Title normalisation `(title or "").lower().replace("—", "-").replace("–", "-")`
from `get_principle_markers_for_title` (source line 1838). -/
def _norm_title (title : String) : String :=
  ⟨(_lower_chars title.data).map (fun c => if c = '—' ∨ c = '–' then '-' else c)⟩

/-- Lane/tier marker pack MARKERS_12 (source lines 188-231). -/
def MARKERS_12 : List Marker := [
  _mm 0 "Red" "HOOK" 3 "Range 0–3s. Open with the clearest value: a visual or line that states *what this is* and *why it matters* in plain language.",
  _mm 3 "Orange" "DRAW" 5 "Range 4–6s. Add one new angle or contrast that deepens curiosity; avoid repeating the hook wording.",
  _mm (9/2) "Magenta" "INTERRUPT #1" 0 "Micro pattern break (≤0.7s). Quick visual flip/cut-in that resets attention without derailing flow.",
  _mm 8 "Green" "COMMIT / PAYOFF" 4 "Range 3–5s. Deliver the promised clarity: tight demo/result/visual that proves the premise.",
  _mm 9 "Magenta" "INTERRUPT #2" 0 "Second micro jolt; invert framing or swap angle to avoid glide to the finish.",
  _mm (58/5) "Yellow" "LOOP / CTA" (2/5) "Range 0.3–1.0s. Button that either loops cleanly or gives one frictionless action."
]

/-- Base tips for all Selects/Stringouts timelines (source SELECTS_BASE). -/
def SELECTS_BASE : List Marker := [
  _mp 0 "Purple" "SELECTS — Workflow" "Pass 1: reject hard misses. Pass 2: keep only \x27A\x27 material. Pass 3: choose alts." 0,
  _mp 1 "Orange" "Labeling & notes" "Use ⭐/color or keywords in Notes: hook, verse, cutaway, reaction, alt, NG." 0,
  _mp 2 "Blue" "Cut points" "Prefer cuts on motion/syllables; add 6–12f handles to each pick for safety." 0,
  _mp 3 "Green" "Sync sanity" "Mark claps/peaks; verify frame-accurate sync against waveform/transients." 0,
  _mp 4 "Yellow" "Stringout pointers" "Range-mark best beats; leave short gaps between ideas to hear pacing honestly." 0,
  _mp 299 "Blue" "⏱ 5min anchor" "" 0
]

/-- Entry "mv_perf" of the SELECTS_SPECIFIC dict in the source. -/
def SELECTS_SPECIFIC_mv_perf : List Marker := [
  _mp 5 "Red" "Lyric map" "Note bar:line references in Notes (e.g., V1L3). Keep best energy + clean lipsync." 0,
  _mp 6 "Blue" "Angle variety" "Favor angle changes on rhyme landings; avoid 3+ consecutive takes of same lens." 0,
  _mp 7 "Pink" "Micro-ramps" "Tag rampable hits (impact/word) for later 90–110% time-micro to sell emphasis." 0
]

/-- Entry "broll" of the SELECTS_SPECIFIC dict in the source. -/
def SELECTS_SPECIFIC_broll : List Marker := [
  _mp 5 "Orange" "Texture diversity" "Collect movement textures (hands, lights, environment). Avoid duplicates of same move." 0,
  _mp 6 "Cyan" "Parallax / depth" "Prefer foreground passes & reveals; tag any perfect whip/cover for transitions." 0,
  _mp 7 "Green" "Cutaway purpose" "Each B-roll pick should illustrate a lyric/idea or hide an A-roll cut." 0
]

/-- Entry "fashion_look" of the SELECTS_SPECIFIC dict in the source. -/
def SELECTS_SPECIFIC_fashion_look : List Marker := [
  _mp 5 "Red" "Silhouette first" "Pick one clean full-body read per look; then 2–3 detail shots (fabric, hardware)." 0,
  _mp 6 "Blue" "Motion beauty" "Walk/turn/hair moments with flow; reject frames that crush garment shape." 0,
  _mp 7 "Yellow" "Color/texture continuity" "Note lighting shifts; tag candidates for thumbnail/carousel." 0
]

/-- Entry "th_aroll" of the SELECTS_SPECIFIC dict in the source. -/
def SELECTS_SPECIFIC_th_aroll : List Marker := [
  _mp 5 "Red" "Message spine" "Select crisp claims and proofs; cut fillers/false starts/breath-tails." 0,
  _mp 6 "Blue" "Cut on gesture" "Hide jump cuts under head/hand motion; tag phrases needing B-roll coverage." 0,
  _mp 7 "Green" "Caption sync" "Keep phrase boundaries clean for line breaks; avoid mid-word cuts." 0
]

/-- Entry "th_broll" of the SELECTS_SPECIFIC dict in the source. -/
def SELECTS_SPECIFIC_th_broll : List Marker := [
  _mp 5 "Orange" "Illustrative matches" "Pick visuals that literally prove the sentence; 1–2 per point max." 0,
  _mp 6 "Cyan" "Readability" "Avoid busy frames behind captions; prefer negative space or shallow DOF." 0
]

/-- Entry "dil_generic" of the SELECTS_SPECIFIC dict in the source. -/
def SELECTS_SPECIFIC_dil_generic : List Marker := [
  _mp 5 "Red" "Micro-scenes" "Collect clear begin→middle→end beats (3–6s each)." 0,
  _mp 6 "Blue" "Entrances/Exits" "Favor shots with natural in/out motion for seamless chaining." 0
]

/-- Entry "dil_commute" of the SELECTS_SPECIFIC dict in the source. -/
def SELECTS_SPECIFIC_dil_commute : List Marker := [
  _mp 5 "Orange" "Travel rhythm" "Wheels/doors/steps ambience; grab a few speed & direction variations." 0,
  _mp 6 "Green" "Landmarks" "Tag 1–2 location wides for context; hold for 0.5–1.0s longer." 0
]

/-- Entry "dil_coffee" of the SELECTS_SPECIFIC dict in the source. -/
def SELECTS_SPECIFIC_dil_coffee : List Marker := [
  _mp 5 "Pink" "Hands & steam" "Close-ups of pour/steam; use them to reset cadence later." 0,
  _mp 6 "Yellow" "Loop beats" "Pick a looping action (stir, sip, door swing) for intros/outros." 0
]

/-- Entry "cook_overhead" of the SELECTS_SPECIFIC dict in the source. -/
def SELECTS_SPECIFIC_cook_overhead : List Marker := [
  _mp 5 "Red" "Clean hits" "Choose takes with clear pad contact & stable wrist; reject occluded hits." 0,
  _mp 6 "Blue" "UI context" "Grab short UI pans for key/plugin; make sure values are legible." 0
]

/-- Entry "cook_front" of the SELECTS_SPECIFIC dict in the source. -/
def SELECTS_SPECIFIC_cook_front : List Marker := [
  _mp 5 "Orange" "Energy & eye line" "Prefer takes with micro-groove and camera engagement; avoid dead stares." 0,
  _mp 6 "Green" "Reveal moments" "Pick sequences that set up/pay off arrangement changes." 0
]

/-- Entry "cook_foley" of the SELECTS_SPECIFIC dict in the source. -/
def SELECTS_SPECIFIC_cook_foley : List Marker := [
  _mp 5 "Cyan" "Transient truth" "Select crisp knob turns/clicks; align to grid transient if needed." 0,
  _mp 6 "Yellow" "Variety" "Gather a library: short/long whooshes, reverse, button, cloth, hands." 0
]

/-- Entry "stringout_generic" of the SELECTS_SPECIFIC dict in the source. -/
def SELECTS_SPECIFIC_stringout_generic : List Marker := [
  _mp 5 "Red" "Order" "Hook → context → develop → payoff. Keep a 3:1 selects-to-runtime ratio." 0,
  _mp 6 "Blue" "Air for pacing" "Leave tiny gaps between ideas; listen without music first, then add bed." 0,
  _mp 7 "Green" "Markers to beats" "Range-mark final beats to guide transitions and graphics later." 0
]

/-- Key lookup in the SELECTS_SPECIFIC dict (Python `d.get(k)` / `k in d`). -/
def SELECTS_SPECIFIC_get (k : String) : Option (List Marker) :=
  match k with
  | "mv_perf" => some SELECTS_SPECIFIC_mv_perf
  | "broll" => some SELECTS_SPECIFIC_broll
  | "fashion_look" => some SELECTS_SPECIFIC_fashion_look
  | "th_aroll" => some SELECTS_SPECIFIC_th_aroll
  | "th_broll" => some SELECTS_SPECIFIC_th_broll
  | "dil_generic" => some SELECTS_SPECIFIC_dil_generic
  | "dil_commute" => some SELECTS_SPECIFIC_dil_commute
  | "dil_coffee" => some SELECTS_SPECIFIC_dil_coffee
  | "cook_overhead" => some SELECTS_SPECIFIC_cook_overhead
  | "cook_front" => some SELECTS_SPECIFIC_cook_front
  | "cook_foley" => some SELECTS_SPECIFIC_cook_foley
  | "stringout_generic" => some SELECTS_SPECIFIC_stringout_generic
  | _ => none

/-- Entry "clone" of the SHOTFX_SPECIFIC dict in the source. -/
def SHOTFX_SPECIFIC_clone : List Marker := [
  _mp 0 "Orange" "Prep / Plates" "Lock-off or perfectly repeatable move. Shoot a clean plate. Keep exposure/WB fixed." 0,
  _mp 1 "Blue" "Mask strategy" "Plan overlap: decide who passes in front. Soft 6–10px feather; avoid hair edges on seams." 0,
  _mp 2 "Green" "Parallax sanity" "If handheld, stabilize BOTH plates before masking. Align on hard verticals (door frames)." 0,
  _mp 3 "Pink" "Seam check (Difference)" "Use a Difference/Blend preview to locate seam crawl; nudge mask or warp to match." 0,
  _mp 4 "Cyan" "Shadows / occlusion" "Ensure correct layer order where subjects cross; paint/contact-shadow fix if needed." 0,
  _mp 5 "Yellow" "Grain / blur match" "Match grain and motion blur between plates; add grain last so edges integrate." 0,
  _mp 6 "Purple" "Continuity glance" "Watch hands/feet for pops at the seam during moves; micro-transform if necessary." 0,
  _mp 299 "Blue" "⏱ 5min anchor" "" 0
]

/-- Entry "clean_plate" of the SHOTFX_SPECIFIC dict in the source. -/
def SHOTFX_SPECIFIC_clean_plate : List Marker := [
  _mp 0 "Orange" "Choose source" "Prefer adjacent frames over stills to keep texture; avoid plastic look." 0,
  _mp 1 "Blue" "Track first" "Corner/planar or point track the patch area; stabilize into a working space, then composite." 0,
  _mp 2 "Green" "Patch blend" "Use soft, irregular masks; bias feather into patch. Match local contrast, not global." 0,
  _mp 3 "Pink" "Skin texture" "Do not blur: borrow texture from nearby skin; keep pores. Add tiny monochrome grain if needed." 0,
  _mp 4 "Cyan" "Temporal sanity" "If the head moves, use a short temporal patch (few frames) rather than one still." 0,
  _mp 5 "Yellow" "Color/Specular" "Match micro highlights; reduce spec hotspots with gentle curve, not blur." 0,
  _mp 299 "Blue" "⏱ 5min anchor" "" 0
]

/-- Entry "background_cleanup" of the SHOTFX_SPECIFIC dict in the source. -/
def SHOTFX_SPECIFIC_background_cleanup : List Marker := [
  _mp 0 "Orange" "Analyze plane" "Is it flat (planar track) or curved (mesh/point)? Choose tracker accordingly." 0,
  _mp 1 "Blue" "Perspective insert" "Corner-pin a clean patch in perspective; match lens distortion if heavy wide." 0,
  _mp 2 "Green" "Edge contamination" "Avoid straight mask edges across textured bricks/tiles; irregular feather sells it." 0,
  _mp 3 "Pink" "Lighting continuity" "Replicate falloff & vignette; add tiny shadow where object was so wall doesn\x27t look \x27too clean\x27." 0,
  _mp 4 "Yellow" "Grain / noise" "Sample target area\x27s noise level; add back after composite to prevent \x27cutout\x27 look." 0,
  _mp 299 "Blue" "⏱ 5min anchor" "" 0
]

/-- Entry "remove_mic_cable" of the SHOTFX_SPECIFIC dict in the source. -/
def SHOTFX_SPECIFIC_remove_mic_cable : List Marker := [
  _mp 0 "Orange" "Prep" "Stabilize the hand region (temp) to simplify paint/roto; work in stabilized space." 0,
  _mp 1 "Blue" "Roto contour" "Follow knuckle silhouettes; keep feather into skin not into background." 0,
  _mp 2 "Green" "Clone/patch passes" "Borrow from nearby skin frames; track to hand motion; avoid sliding texture." 0,
  _mp 3 "Pink" "Specular continuity" "Rebuild highlight streaks across the patch; tiny dodge/burn beats blur every time." 0,
  _mp 4 "Cyan" "Motion blur" "Match shutter blur on fast finger moves; composite pre-blur, not post." 0,
  _mp 5 "Yellow" "Final grain" "Add matched grain over the composite; check at 100% zoom." 0,
  _mp 299 "Blue" "⏱ 5min anchor" "" 0
]

/-- Entry "hand_split" of the SHOTFX_SPECIFIC dict in the source. -/
def SHOTFX_SPECIFIC_hand_split : List Marker := [
  _mp 0 "Orange" "Plates & timing" "Record two performance passes to the same click; clap or beep for sync." 0,
  _mp 1 "Blue" "Registration" "Lock camera; if not, stabilize both plates to the sampler face." 0,
  _mp 2 "Green" "Mask logic" "Choose overlap line along hardware edges; avoid finger edges crossing seam." 0,
  _mp 3 "Pink" "Pad feedback" "Duplicate LED/hit feedback under the correct hand; avoid double-lit pads." 0,
  _mp 4 "Cyan" "Audio truth" "If printing live audio, comp the correct take for each hit; no double hits." 0,
  _mp 5 "Yellow" "Micro parallax" "If hands drift apart, micro-warp one plate to the other near the seam." 0,
  _mp 299 "Blue" "⏱ 5min anchor" "" 0
]

/-- Entry "screen_insert" of the SHOTFX_SPECIFIC dict in the source. -/
def SHOTFX_SPECIFIC_screen_insert : List Marker := [
  _mp 0 "Orange" "Track" "Planar track the screen surface; verify track on edges & diagonals, not just corners." 0,
  _mp 1 "Blue" "Corner pin" "Apply corner pin; precomp UI at native aspect; avoid subpixel shimmer by slight defocus." 0,
  _mp 2 "Green" "Display look" "Gamma lift + slight saturation cut; add 1–2 px inner glow and faint reflection pass." 0,
  _mp 3 "Pink" "Motion blur & flicker" "Match shutter blur; optional subtle 0.5–1% luminance flicker to sell emissive panel." 0,
  _mp 4 "Cyan" "Moire / aliasing" "Add tiny grain and 0.2–0.4 px defocus to kill moire while keeping UI crisp enough." 0,
  _mp 5 "Yellow" "Light spill" "Add light wrap onto bezels/fingers at bright frames; very low opacity." 0,
  _mp 299 "Blue" "⏱ 5min anchor" "" 0
]

/-- Key lookup in the SHOTFX_SPECIFIC dict (Python `d.get(k)` / `k in d`). -/
def SHOTFX_SPECIFIC_get (k : String) : Option (List Marker) :=
  match k with
  | "clone" => some SHOTFX_SPECIFIC_clone
  | "clean_plate" => some SHOTFX_SPECIFIC_clean_plate
  | "background_cleanup" => some SHOTFX_SPECIFIC_background_cleanup
  | "remove_mic_cable" => some SHOTFX_SPECIFIC_remove_mic_cable
  | "hand_split" => some SHOTFX_SPECIFIC_hand_split
  | "screen_insert" => some SHOTFX_SPECIFIC_screen_insert
  | _ => none

/-- Entry "scenes_segments" of the PRINCIPLE_PACKS dict in the source. -/
def PRINCIPLE_PACKS_scenes_segments : List Marker := [
  _mp 0 "Purple" "PRINCIPLES — Scenes/Segments" "• First-frame clarity (<2s): who/where/what.\n• Keep trims tight; avoid >1.5s dead air between ideas.\n• Use bridges for invisible cuts (movement/sound/action)." 0,
  _mp 1 "Pink" "Micro-jolt cadence" "Insert a quick change every ~5–8s (angle/motion/graphic) to refresh attention." 0,
  _mp 2 "Yellow" "Loop seam awareness" "Plan an end frame that re-enters cleanly if the video loops on social." 0,
  _mp 299 "Blue" "⏱ 5min anchor" "Timeline duration marker (auto-generated)" 0
]

/-- Entry "shotfx" of the PRINCIPLE_PACKS dict in the source. -/
def PRINCIPLE_PACKS_shotfx : List Marker := [
  _mp 0 "Purple" "PRINCIPLES — ShotFX" "• Composite first, grade after (minimize double processing).\n• Track → refine → blend: favor natural edges over harsh feather.\n• Use AI assists sparingly; keep facial texture/natural motion." 0,
  _mp 1 "Blue" "Mask edge awareness" "Mind edges during fast motion; avoid halos/boil. Prefer soft, directional feathering." 0,
  _mp 2 "Pink" "Look exploration" "Try one alternate \x27beauty vs grit\x27 treatment for options later." 0,
  _mp 299 "Blue" "⏱ 5min anchor" "Timeline duration marker (auto-generated)" 0
]

/-- Entry "talking_head" of the PRINCIPLE_PACKS dict in the source. -/
def PRINCIPLE_PACKS_talking_head : List Marker := [
  _mp 0 "Purple" "PRINCIPLES — Talking Head" "• Lead with the point (don\x27t bury context).\n• Tighten fillers; preserve natural cadence.\n• Support hard ideas with B-roll overlays; hide jump cuts." 0,
  _mp 1 "Blue" "B-roll window" "Consider an overlay here to illustrate or cover a breath cut." 0,
  _mp 2 "Yellow" "Pacing & captions" "Keep line breaks on phrase boundaries; punch keywords with subtle zoom/audio emphasis." 0,
  _mp 299 "Blue" "⏱ 5min anchor" "Timeline duration marker (auto-generated)" 0
]

/-- Entry "fashion" of the PRINCIPLE_PACKS dict in the source. -/
def PRINCIPLE_PACKS_fashion : List Marker := [
  _mp 0 "Purple" "PRINCIPLES — Fashion" "• Silhouette first (clean read, full body).\n• Then detail: fabric/texture/hardware micro-shots.\n• Motion beauty: walk/turn/glance for flow & attitude." 0,
  _mp 1 "Pink" "Motion beauty" "Feature a fluid move here (turn/step/hair/garment ripple)." 0,
  _mp 2 "Green" "Thumbnail candidates" "Flag strong stills for covers/carousels later." 0,
  _mp 299 "Blue" "⏱ 5min anchor" "Timeline duration marker (auto-generated)" 0
]

/-- Entry "day_in_the_life" of the PRINCIPLE_PACKS dict in the source. -/
def PRINCIPLE_PACKS_day_in_the_life : List Marker := [
  _mp 0 "Purple" "PRINCIPLES — Day in the Life" "• Intent fast: what\x27s happening today?\n• Micro-scenes > montage blur: 3–6s beats with clear purpose.\n• End each cycle with a small resolution or tease." 0,
  _mp 1 "Blue" "Atmos pass" "Insert textures/hands/ambient to vary pacing without losing thread." 0,
  _mp 2 "Yellow" "Transition moment" "Natural hop to the next micro-scene (movement/sound change)." 0,
  _mp 3 "Green" "Cycle closure" "Leave a resolved beat that can loop if needed." 0,
  _mp 299 "Blue" "⏱ 5min anchor" "Timeline duration marker (auto-generated)" 0
]

/-- Entry "cook_ups" of the PRINCIPLE_PACKS dict in the source. -/
def PRINCIPLE_PACKS_cook_ups : List Marker := [
  _mp 0 "Purple" "PRINCIPLES — Cook-Ups" "• Introduce motif quickly; show the \x27why\x27 of the tweak.\n• Reveal progress visually (UI, hands, waveform/meter)." 0,
  _mp 1 "Yellow" "Arrangement choice" "Commit to a direction; avoid endless A/B meanders." 0,
  _mp 2 "Blue" "UI / sound insert" "Highlight a plugin/knob/waveform moment that sells the change." 0,
  _mp 3 "Pink" "Vibe spike" "Create a small peak (camera move, slow-mo, quick cut burst)." 0,
  _mp 299 "Blue" "⏱ 5min anchor" "Timeline duration marker (auto-generated)" 0
]

/-- Key lookup in the PRINCIPLE_PACKS dict (Python `d.get(k)` / `k in d`). -/
def PRINCIPLE_PACKS_get (k : String) : Option (List Marker) :=
  match k with
  | "scenes_segments" => some PRINCIPLE_PACKS_scenes_segments
  | "shotfx" => some PRINCIPLE_PACKS_shotfx
  | "talking_head" => some PRINCIPLE_PACKS_talking_head
  | "fashion" => some PRINCIPLE_PACKS_fashion
  | "day_in_the_life" => some PRINCIPLE_PACKS_day_in_the_life
  | "cook_ups" => some PRINCIPLE_PACKS_cook_ups
  | _ => none
/-- Variant detection `_shotfx_variant_for_title(norm_title)` (source lines 896-911). -/
def _shotfx_variant_for_title (norm_title : String) : Option String :=
  let t := strLower norm_title
  if strContains t "clone" then some "clone"
  else if strContains t "clean plate" then some "clean_plate"
  else if strContains t "background" && strContains t "cleanup" then some "background_cleanup"
  else if (strContains t "remove" && strContains t "mic") || strContains t "mic cable" then some "remove_mic_cable"
  else if strContains t "hand split" then some "hand_split"
  else if strContains t "screen insert" || strContains t "(ui)" || (strContains t "screen" && strContains t "insert") then some "screen_insert"
  else none

/-- Variant detection `_selects_variant_for_title(norm_title)` (source lines 1160-1192). -/
def _selects_variant_for_title (norm_title : String) : Option String :=
  let t := strLower norm_title
  if strContains t "perf selects" || strContains t "performance selects" then some "mv_perf"
  else if strContains t "b-roll selects" || strContains t "broll selects" then some "broll"
  else if strContains t "look selects" then some "fashion_look"
  else if strContains t "a-roll selects" || strContains t "aroll selects" then some "th_aroll"
  else if strContains t "selects — commute" || strContains t "selects - commute" || strContains t "commute" then some "dil_commute"
  else if strContains t "coffee" then some "dil_coffee"
  else if strStarts t "selects —" || strStarts t "selects -" then some "dil_generic"
  else if strContains t "overhead selects" then some "cook_overhead"
  else if strContains t "front cam selects" || strContains t "front-camera selects" then some "cook_front"
  else if strContains t "foley/prod selects" || strContains t "foley selects" || strContains t "prod selects" then some "cook_foley"
  else if strContains t "stringout" then some "stringout_generic"
  else none

/-- Master-timeline exclusion condition of `get_principle_markers_for_title`
(source lines 1841-1849), on the already-normalised title. -/
def _master_excluded (t : String) : Bool :=
  (strContains t " money master" || strStarts t "money master")
  || (strContains t " master -" || strStarts t "mv master")
  || strStarts t "th master"
  || strStarts t "fashion master"
  || strStarts t "dil master"
  || strStarts t "cook-up master"

/-- Map a timeline title to a principle pack, skipping masters:
`get_principle_markers_for_title(title)` (source lines 1837-1881). -/
def get_principle_markers_for_title (title : String) : List Marker :=
  let t := _norm_title title
  if _master_excluded t then []
  else if strContains t "selects" || strContains t "stringout" then
    match _selects_variant_for_title t with
    | some var_key =>
      match SELECTS_SPECIFIC_get var_key with
      | some pack => SELECTS_BASE ++ pack
      | none => SELECTS_BASE
    | none => SELECTS_BASE
  else if strContains t "shotfx" || strContains t "shot fx" then
    match _shotfx_variant_for_title t with
    | some var_key =>
      match SHOTFX_SPECIFIC_get var_key with
      | some pack => PRINCIPLE_PACKS_shotfx ++ pack
      | none => PRINCIPLE_PACKS_shotfx
    | none => PRINCIPLE_PACKS_shotfx
  else if strContains t "segment" then PRINCIPLE_PACKS_scenes_segments
  else if strContains t "interview" then PRINCIPLE_PACKS_talking_head
  else if strContains t "look" then PRINCIPLE_PACKS_fashion
  else if strContains t "chapter" then PRINCIPLE_PACKS_day_in_the_life
  else if strContains t "section" then PRINCIPLE_PACKS_cook_ups
  else []

/-- Ascending order on markers by time, the sort key
`key=lambda x: x.get("t", 0.0)` of `_butt_join_markers`. -/
def markerLe (a b : Marker) : Prop :=
  a.t ≤ b.t

instance : DecidableRel markerLe :=
  fun a b => inferInstanceAs (Decidable (a.t ≤ b.t))

instance : IsTotal Marker markerLe :=
  ⟨fun a b => le_total a.t b.t⟩

instance : IsTrans Marker markerLe :=
  ⟨fun _ _ _ h1 h2 => le_trans h1 h2⟩

/-- Descending order on markers by time, the sort key
`key=lambda m: m["t"], reverse=True` of `add_markers_to_timeline_if_empty`. -/
def markerGe (a b : Marker) : Prop :=
  b.t ≤ a.t

instance : DecidableRel markerGe :=
  fun a b => inferInstanceAs (Decidable (b.t ≤ a.t))

/-- Frame-rate parse `float(fps_str)` with the `except: 29.97` fallback that
both `_butt_join_markers` and `add_markers_to_timeline_if_empty` use; an
unparsable string is `none`. -/
def _fps_or_default (fps : Option ℚ) : ℚ :=
  fps.getD (2997/100)

/-- Body of one iteration of the `_butt_join_markers` loop: the earlier
marker `cur` of an adjacent sorted pair is stretched by
`min(gap, 1 frame)` when it has positive duration and a positive gap to
`nxt` (source lines 2087-2098). Only `nxt`'s time is read. -/
def _butt_adjust (fps : ℚ) (cur nxt : Marker) : Marker :=
  if cur.dur ≤ 0 then cur
  else
    let gap := nxt.t - (cur.t + cur.dur)
    if 0 < gap then { cur with dur := cur.dur + min gap (1/fps) } else cur

/-- The `for i in range(len(ms) - 1)` loop of `_butt_join_markers`: iteration
`i` reads `ms[i+1].t` and rewrites `ms[i].dur` only, so the loop is a map
over adjacent pairs. -/
def _butt_join_pairs (fps : ℚ) : List Marker → List Marker
  | [] => []
  | [m] => [m]
  | a :: b :: rest => _butt_adjust fps a b :: _butt_join_pairs fps (b :: rest)

/-- The butt-join postprocessor `_butt_join_markers(markers, fps_str)`
(source lines 2078-2100): parse the frame rate (29.97 fallback), return the
empty input unchanged, otherwise sort ascending by time (Python's sort is
stable) and close positive gaps by at most one frame. -/
def _butt_join_markers (fps_str : Option ℚ) (markers : List Marker) : List Marker :=
  let fps := _fps_or_default fps_str
  if markers.isEmpty then markers
  else _butt_join_pairs fps (List.insertionSort markerLe markers)

/-- Seconds→frames conversion `_sec_to_frames(sec, fps_float) = int(round(sec * fps_float))`
(source lines 2074-2075). -/
def _sec_to_frames (sec fps : ℚ) : ℤ :=
  _py_round (sec * fps)

/-- Duration guard `ensure_min_duration(dur_frames) = max(1, int(dur_frames or 1))`
(source lines 2103-2105); Python's `or` turns a zero into 1 before the `max`. -/
def ensure_min_duration (dur_frames : ℤ) : ℤ :=
  max 1 (if dur_frames = 0 then 1 else dur_frames)

/-- One raw `tl.AddMarker(...)` host call: the 6-argument form carries the
trailing `""` custom-data argument, the 5-argument form omits it. -/
structure AddAttempt where
  sixArg : Bool
  frame : ℤ
  color : String
  name : String
  note : String
  durFrames : ℤ
deriving DecidableEq

/-- Possible behaviours of one host `AddMarker` call: a truthy return, a
falsy return, or a raised exception. -/
inductive CallOutcome where
  | ok
  | falsy
  | raises
deriving DecidableEq

/-- A host oracle for marker placement: what each raw `AddMarker` call does. -/
def AddMarkerHost : Type :=
  AddAttempt → CallOutcome

/-- The inner 5-argument branch of `_add_marker_safe` (the `except` handler
of source lines 2126-2144): try the 5-arg call, on a falsy return retry
once with the fallback color; any exception inside this handler falls
through to `return False`. `pre` is the trace accumulated so far. -/
def _add_marker_safe_5arg (host : AddMarkerHost) (frame : ℤ) (color name note : String)
    (d : ℤ) (pre : List AddAttempt) : Bool × List AddAttempt :=
  let c3 := AddAttempt.mk false frame color name note d
  match host c3 with
  | .ok => (true, pre ++ [c3])
  | .raises => (false, pre ++ [c3])
  | .falsy =>
    match _COLOR_FALLBACK color with
    | none => (false, pre ++ [c3])
    | some fb =>
      let c4 := AddAttempt.mk false frame fb name note d
      match host c4 with
      | .ok => (true, pre ++ [c3, c4])
      | _ => (false, pre ++ [c3, c4])

/-- Guarded marker placement `_add_marker_safe(tl, frame, color, name, note, dur_frames)`
(source lines 2108-2146): clamp the duration with `ensure_min_duration`,
try the 6-arg `AddMarker`, on a falsy return retry once with the fallback
color, and on any exception in that `try` fall back to the 5-arg branch.
Returns whether the marker was placed, plus the raw host calls issued. -/
def _add_marker_safe (host : AddMarkerHost) (frame : ℤ) (color name note : String)
    (dur_frames : ℤ) : Bool × List AddAttempt :=
  let d := ensure_min_duration dur_frames
  let c1 := AddAttempt.mk true frame color name note d
  match host c1 with
  | .ok => (true, [c1])
  | .raises => _add_marker_safe_5arg host frame color name note d [c1]
  | .falsy =>
    match _COLOR_FALLBACK color with
    | none => (false, [c1])
    | some fb =>
      let c2 := AddAttempt.mk true frame fb name note d
      match host c2 with
      | .ok => (true, [c1, c2])
      | .falsy => (false, [c1, c2])
      | .raises => _add_marker_safe_5arg host frame color name note d [c1, c2]

/-- What `tl.GetMarkers()` does on this timeline: return a dict of `n`
markers, return a list of `n` markers, return some other value, or raise
(the API is absent on some builds). -/
inductive GetMarkersResult where
  | dict (n : ℕ)
  | list (n : ℕ)
  | other
  | raises
deriving DecidableEq

/-- The timeline as the marker-seeding path observes it. -/
structure Timeline where
  getMarkers : GetMarkersResult

/-- Marker counting `_count_markers(tl)` (source lines 2200-2211): length of
a dict or list result; anything else, including an exception, counts as 0
so that seeding is allowed. -/
def _count_markers (tl : Timeline) : ℕ :=
  match tl.getMarkers with
  | .dict n => n
  | .list n => n
  | .other => 0
  | .raises => 0

/-- Result of one `add_markers_to_timeline_if_empty` call: the returned
`added` count, the raw `AddMarker` host calls issued, and the entries this
code path appends to the run-scoped `stats.errors` list (the source never
touches `stats` here, so this component is `[]` on every path). -/
structure SeedOutcome where
  added : ℕ
  attempts : List AddAttempt
  errorsLogged : List String
deriving DecidableEq

/-- The color substitution of the seeding loop (source lines 2243-2246):
`if color not in _SUPPORTED_MARKER_COLORS: color = _COLOR_FALLBACK.get(color, "Red")`. -/
def _seed_color (c : String) : String :=
  if _SUPPORTED_MARKER_COLORS.contains c then c else (_COLOR_FALLBACK c).getD "Red"

/-- The `for m in sorted_markers` loop of `add_markers_to_timeline_if_empty`
(source lines 2236-2247): convert offset and duration to frames, lift the
duration to at least 1, replace an unsupported color by its fallback
(default `"Red"`), place via `_add_marker_safe`, and count successes. -/
def _seed_loop (host : AddMarkerHost) (fps : ℚ) : List Marker → ℕ × List AddAttempt
  | [] => (0, [])
  | m :: rest =>
    let frame := _sec_to_frames m.t fps
    let dur0 := _sec_to_frames m.dur fps
    let dur := if dur0 < 1 then 1 else dur0
    let r := _add_marker_safe host frame (_seed_color m.color) m.name m.notes dur
    let rec_ := _seed_loop host fps rest
    ((if r.1 then 1 else 0) + rec_.1, r.2 ++ rec_.2)

/-- Marker seeding `add_markers_to_timeline_if_empty(tl, fps_str, markers, force=False)`
(source lines 2214-2254): parse fps with the 29.97 fallback; if the
reported existing marker count is positive and `force` is false, return 0
without issuing any host call; if the pack is empty, return 0; otherwise
run the placement loop over the pack sorted by time descending
(furthest-first, Python's stable sort). -/
def add_markers_to_timeline_if_empty (tl : Timeline) (host : AddMarkerHost)
    (fps_str : Option ℚ) (markers : List Marker) (force : Bool) : SeedOutcome :=
  let fps := _fps_or_default fps_str
  let existing := _count_markers tl
  if 0 < existing ∧ force = false then ⟨0, [], []⟩
  else if markers.length = 0 then ⟨0, [], []⟩
  else
    let sorted_markers := List.insertionSort markerGe markers
    let r := _seed_loop host fps sorted_markers
    ⟨r.1, r.2, []⟩

/-- The three Resolve track kinds. -/
inductive TrackKind where
  | video
  | audio
  | subtitle
deriving DecidableEq

/-- The kind strings used in host calls and error messages. -/
def TrackKind.str : TrackKind → String
  | .video => "video"
  | .audio => "audio"
  | .subtitle => "subtitle"

/-- Host oracle for the track operations `ensure_tracks_named` performs:
whether `GetTrackCount(kind)` raises, whether the `i`-th `AddTrack(kind)`
call of the run raises (and its exception text), whether
`SetTrackName(kind, i, ...)` at 1-based index `i` raises, and the default
display name the host gives a newly added track. -/
structure TrackHost where
  countRaises : TrackKind → Bool
  addRaises : TrackKind → ℕ → Bool
  addErrText : TrackKind → ℕ → String
  renameRaises : TrackKind → ℕ → Bool
  newTrackName : TrackKind → ℕ → String

/-- Track display names of one timeline, per kind, in host index order
(video index 1 = bottom). -/
structure TracksState where
  video : List String
  audio : List String
  subtitle : List String
deriving DecidableEq

/-- The track list of one kind. -/
def TracksState.ofKind (ts : TracksState) : TrackKind → List String
  | .video => ts.video
  | .audio => ts.audio
  | .subtitle => ts.subtitle

/-- Replace the track list of one kind. -/
def TracksState.setKind (ts : TracksState) : TrackKind → List String → TracksState
  | .video, l => { ts with video := l }
  | .audio, l => { ts with audio := l }
  | .subtitle, l => { ts with subtitle := l }

/-- The `for _ in range(max(0, need))` add loop of `ensure_tracks_named`
(source lines 2025-2034): each `AddTrack` either appends a host-named
track (counted in `stats.tracks_created`) or raises, which appends
`"Track creation: {kind}: {err}"` to `stats.errors` and continues. -/
def _add_tracks_loop (host : TrackHost) (kind : TrackKind) :
    ℕ → ℕ → TracksState → List String → ℕ → TracksState × List String × ℕ
  | 0, _, ts, es, c => (ts, es, c)
  | n + 1, i, ts, es, c =>
    if host.addRaises kind i then
      _add_tracks_loop host kind n (i + 1) ts
        (es ++ ["Track creation: " ++ kind.str ++ ": " ++ host.addErrText kind i]) c
    else
      _add_tracks_loop host kind n (i + 1)
        (ts.setKind kind (ts.ofKind kind ++ [host.newTrackName kind i])) es (c + 1)

/-- The `for i, label in enumerate(target, 1)` rename loop of
`ensure_tracks_named` (source lines 2037-2048): `SetTrackName(kind, i, label)`
with every exception swallowed; a rename at an index beyond the current
count leaves the state unchanged (`List.set` out of range is the identity). -/
def _rename_tracks_loop (host : TrackHost) (kind : TrackKind) :
    ℕ → List String → List String → List String
  | _, [], ts => ts
  | i, label :: rest, ts =>
    _rename_tracks_loop host kind (i + 1) rest
      (if host.renameRaises kind i then ts else ts.set (i - 1) label)

/-- Track reconciliation `ensure_tracks_named(tl, kind, names_top_to_bottom,
names_left_to_right, stats)` (source lines 2014-2060): video targets are the
declared top-to-bottom labels reversed into host bottom-to-top order; read
the current count (0 if the host call raises), add `max(0, declared − have)`
tracks, rename indices 1..len(target) (hard-coded `"video"`/`"audio"` kind),
and for the non-video branch ensure a single subtitle track named
`"CC | English"` when the reported subtitle count is 0. Returns the new
track state, the updated `stats.errors`, and the `stats.tracks_created`
increment. -/
def ensure_tracks_named (tl : TracksState) (host : TrackHost) (kind : TrackKind)
    (names_top_to_bottom names_left_to_right : List String) (errors0 : List String) :
    TracksState × List String × ℕ :=
  let target := if kind = .video then names_top_to_bottom.reverse else names_left_to_right
  let have_ := if host.countRaises kind then 0 else (tl.ofKind kind).length
  let r1 := _add_tracks_loop host kind (target.length - have_) 0 tl errors0 0
  if kind = .video then
    (r1.1.setKind .video (_rename_tracks_loop host .video 1 target (r1.1.video)), r1.2.1, r1.2.2)
  else
    let ts2 := r1.1.setKind .audio (_rename_tracks_loop host .audio 1 target (r1.1.audio))
    let subcnt := if host.countRaises .subtitle then 0 else ts2.subtitle.length
    if subcnt = 0 then
      if host.addRaises .subtitle 0 then (ts2, r1.2.1, r1.2.2)
      else
        let ts3 := ts2.setKind .subtitle (ts2.subtitle ++ [host.newTrackName .subtitle 0])
        if host.renameRaises .subtitle 1 then (ts3, r1.2.1, r1.2.2)
        else (ts3.setKind .subtitle (ts3.subtitle.set 0 "CC | English"), r1.2.1, r1.2.2 + 1)
    else (ts2, r1.2.1, r1.2.2)

/-- Concrete host that accepts every `AddMarker` call (a healthy Resolve). -/
def hostAllOk : AddMarkerHost :=
  fun _ => .ok

/-- Concrete host on which every `AddMarker` call returns a falsy value
(for example a zero-duration timeline on Resolve builds that reject the
placement instead of raising). -/
def hostAllFalsy : AddMarkerHost :=
  fun _ => .falsy

/-- Concrete timeline whose `GetMarkers()` reports a dict of three markers. -/
def tlThreeMarkers : Timeline :=
  ⟨.dict 3⟩

/-- Concrete timeline whose `GetMarkers()` reports an empty dict. -/
def tlNoMarkers : Timeline :=
  ⟨.dict 0⟩

/-- Concrete timeline whose `GetMarkers()` raises (API absent on this build). -/
def tlGetMarkersRaises : Timeline :=
  ⟨.raises⟩

/-- Concrete track host on which every call succeeds. -/
def benignTrackHost : TrackHost :=
  ⟨fun _ => false, fun _ _ => false, fun _ _ => "", fun _ _ => false, fun _ _ => "Track"⟩

/-- Concrete timeline track state with 12 video tracks (2 beyond the
10-label declaration used in the witnesses). -/
def tracksTwelve : TracksState :=
  ⟨["V1", "V2", "V3", "V4", "V5", "V6", "V7", "V8", "V9", "V10", "V11", "V12"], [], []⟩

/-- The 10 declared video labels of the witnesses. -/
def labelsTen : List String :=
  ["L1", "L2", "L3", "L4", "L5", "L6", "L7", "L8", "L9", "L10"]

/-- Two-marker pack with a 2-second gap between the first marker's end and
the second marker's start (more than one frame at 30 fps). -/
def packWideGap : List Marker :=
  [_mm 0 "Red" "A" 1 "", _mm 3 "Red" "B" 1 ""]

/-- Two-marker pack whose first marker ends exactly where the second
starts (no positive gap anywhere). -/
def packTouching : List Marker :=
  [_mm 0 "Red" "A" 1 "", _mm 1 "Red" "B" 1 ""]

/-- Two-marker pack with no overlap and a 1-second gap. -/
def packSpaced : List Marker :=
  [_mm 0 "Red" "A" 1 "", _mm 2 "Red" "B" 1 ""]

/-- Two-marker pack used by the failing-placement counterexample. -/
def packTwoRed : List Marker :=
  [_mm 0 "Red" "A" 1 "x", _mm 3 "Red" "B" 1 "y"]

/-- Adjacent-pair condition under which one butt-join pass already closes
the whole gap: the earlier marker is a point marker, or the gap from its
end to the next marker's start is at most one frame (possibly negative). -/
def _small_gap (fps : ℚ) (a b : Marker) : Prop :=
  a.dur ≤ 0 ∨ b.t - (a.t + a.dur) ≤ 1 / fps

/-- No-overlap condition on an adjacent marker pair, as the spec states it:
if the pair is strictly ordered in time, the earlier marker's span ends at
or before the later marker's start. -/
def _no_overlap (a b : Marker) : Prop :=
  a.t < b.t → a.t + a.dur ≤ b.t

/-- C1: if the timeline's reported marker count is nonzero and `force` is
false, `add_markers_to_timeline_if_empty` returns 0, issues no `AddMarker`
host call (so the marker set is unchanged and a second seeding run equals
one run), and records no error. -/
theorem add_markers_skip_nonzero_count (tl : Timeline) (host : AddMarkerHost)
    (fps_str : Option ℚ) (markers : List Marker) (h : 0 < _count_markers tl) :
    add_markers_to_timeline_if_empty tl host fps_str markers false = ⟨0, [], []⟩ := by
  simp [add_markers_to_timeline_if_empty, h]

/-- C1 witness: a timeline reporting three markers is skipped for the
MARKERS_12 pack. -/
theorem add_markers_skip_nonzero_count_witness :
    0 < _count_markers tlThreeMarkers ∧
      add_markers_to_timeline_if_empty tlThreeMarkers hostAllOk (some 30) MARKERS_12 false =
        ⟨0, [], []⟩ :=
  ⟨by decide, add_markers_skip_nonzero_count tlThreeMarkers hostAllOk (some 30) MARKERS_12 (by decide)⟩

/-- C4 counterexample: the title "Segment Master" contains "master"
(case-insensitively) yet `get_principle_markers_for_title` returns a
non-empty pack, because the only excluded names are the specific
master-title patterns, not every name containing "master". -/
theorem master_substring_not_excluded_counterexample :
    strContains (strLower "Segment Master") "master" = true ∧
      get_principle_markers_for_title "Segment Master" ≠ [] := by
  constructor
  · rfl
  · rw [show get_principle_markers_for_title "Segment Master" = PRINCIPLE_PACKS_scenes_segments from rfl]
    simp [PRINCIPLE_PACKS_scenes_segments]

/-- C4 amended: every title whose normalised form matches one of the
specific master patterns of the source (money master embedded or as a
prefix, " master -", or an mv/th/fashion/dil/cook-up master prefix)
gets the empty pack. -/
theorem master_pattern_excluded (title : String)
    (h : _master_excluded (_norm_title title) = true) :
    get_principle_markers_for_title title = [] := by
  simp [get_principle_markers_for_title, h]

/-- C4 witness: the real master timeline name "Money Master — 12s" is
excluded, em-dash normalisation included. -/
theorem master_pattern_excluded_witness :
    _master_excluded (_norm_title "Money Master — 12s") = true ∧
      get_principle_markers_for_title "Money Master — 12s" = [] :=
  ⟨rfl, master_pattern_excluded "Money Master — 12s" rfl⟩

/-- C7 counterexample: the timeline name "Section — Screen Insert (UI)"
resolves to the generic cook-ups section pack, not to the ShotFX
screen-insert variant (its name does not contain "shotfx", so the ShotFX
branch is never reached). -/
theorem section_screen_insert_cookups_counterexample :
    get_principle_markers_for_title "Section — Screen Insert (UI)" = PRINCIPLE_PACKS_cook_ups ∧
      PRINCIPLE_PACKS_cook_ups.length ≠ (PRINCIPLE_PACKS_shotfx ++ SHOTFX_SPECIFIC_screen_insert).length :=
  ⟨rfl, by decide⟩


/-- C7 amended: "shotfx" is checked before the generic "section" keyword
(and "selects"/"stringout" before "look"), so any non-master title whose
normalised form contains "shotfx" (and is not a selects/stringout title)
starts with the ShotFX base pack even if it also contains "section"; the
actual ShotFX screen-insert timeline "ShotFX — Screen Insert (UI)"
resolves to the ShotFX screen-insert variant, and a name containing both
"look" and "selects" resolves to the selects pack, not the fashion pack. -/
theorem shotfx_priority_over_section (title : String)
    (h1 : strContains (_norm_title title) "shotfx" = true)
    (h2 : strContains (_norm_title title) "selects" = false)
    (h3 : strContains (_norm_title title) "stringout" = false)
    (h4 : _master_excluded (_norm_title title) = false) :
    (get_principle_markers_for_title title).take PRINCIPLE_PACKS_shotfx.length =
        PRINCIPLE_PACKS_shotfx ∧
      get_principle_markers_for_title "ShotFX — Screen Insert (UI)" =
        PRINCIPLE_PACKS_shotfx ++ SHOTFX_SPECIFIC_screen_insert ∧
      get_principle_markers_for_title "Fashion — Look Selects" =
        SELECTS_BASE ++ SELECTS_SPECIFIC_fashion_look := by
  refine ⟨?_, rfl, rfl⟩
  unfold get_principle_markers_for_title
  simp only [h1, h2, h3, h4, Bool.or_self, Bool.false_or, Bool.true_or, if_false, if_true, Bool.false_eq_true]
  rcases hv : _shotfx_variant_for_title (_norm_title title) with _ | k
  · simp [hv, List.take_length]
  · rcases hp : SHOTFX_SPECIFIC_get k with _ | pack
    · simp [hv, hp, List.take_length]
    · simp [hv, hp, List.take_left]

/-- C7 witness: a hypothetical title containing both "shotfx" and
"section" still resolves to a pack starting with the ShotFX base. -/
theorem shotfx_priority_over_section_witness :
    strContains (_norm_title "ShotFX — Section Screen Insert (UI)") "shotfx" = true ∧
      strContains (_norm_title "ShotFX — Section Screen Insert (UI)") "section" = true ∧
      (get_principle_markers_for_title "ShotFX — Section Screen Insert (UI)").take
          PRINCIPLE_PACKS_shotfx.length = PRINCIPLE_PACKS_shotfx :=
  ⟨rfl, rfl, (shotfx_priority_over_section "ShotFX — Section Screen Insert (UI)" rfl rfl rfl rfl).1⟩

/-- Helper: the clamped duration is always at least one frame. -/
theorem ensure_min_duration_pos (d : ℤ) : 1 ≤ ensure_min_duration d :=
  le_max_left 1 _

/-- Helper: the 5-argument branch of `_add_marker_safe` only appends to the
trace it is given, appends at least one call, and every appended call
carries the clamped duration it received. -/
theorem ams5_trace_append (host : AddMarkerHost) (f : ℤ) (c n nt : String) (d : ℤ)
    (pre : List AddAttempt) :
    ∃ tail, (_add_marker_safe_5arg host f c n nt d pre).2 = pre ++ tail ∧ tail ≠ [] ∧
      ∀ a ∈ tail, a.durFrames = d := by
  unfold _add_marker_safe_5arg
  rcases h1 : host (AddAttempt.mk false f c n nt d) with _ | _ | _ <;>
    rcases h2 : _COLOR_FALLBACK c with _ | fb <;>
    simp only [h1, h2]
  · exact ⟨_, rfl, by simp, by simp⟩
  · exact ⟨_, rfl, by simp, by simp⟩
  · exact ⟨_, rfl, by simp, by simp⟩
  · rcases h3 : host (AddAttempt.mk false f fb n nt d) with _ | _ | _ <;> simp only [h3] <;>
      exact ⟨_, rfl, by simp, by simp +decide [List.mem_cons]⟩
  · exact ⟨_, rfl, by simp, by simp⟩
  · exact ⟨_, rfl, by simp, by simp⟩

/-- Helper: the first host call `_add_marker_safe` issues is always the
6-argument call with exactly the arguments it was given, duration clamped. -/
theorem ams_trace_head (host : AddMarkerHost) (f : ℤ) (c n nt : String) (d : ℤ) :
    ∃ tail, (_add_marker_safe host f c n nt d).2 =
      AddAttempt.mk true f c n nt (ensure_min_duration d) :: tail := by
  unfold _add_marker_safe
  rcases h1 : host (AddAttempt.mk true f c n nt (ensure_min_duration d)) with _ | _ | _ <;>
    simp only [h1]
  · exact ⟨[], rfl⟩
  · rcases h2 : _COLOR_FALLBACK c with _ | fb <;> simp only [h2]
    · exact ⟨[], rfl⟩
    · rcases h3 : host (AddAttempt.mk true f fb n nt (ensure_min_duration d)) with _ | _ | _ <;>
        simp only [h3]
      · exact ⟨_, rfl⟩
      · exact ⟨_, rfl⟩
      · obtain ⟨tail, ht, -, -⟩ := ams5_trace_append host f c n nt (ensure_min_duration d) _
        exact ⟨_, by rw [ht]; rfl⟩
  · obtain ⟨tail, ht, -, -⟩ := ams5_trace_append host f c n nt (ensure_min_duration d) _
    exact ⟨_, by rw [ht]; rfl⟩

/-- Helper: `_add_marker_safe` always issues at least one host call. -/
theorem ams_trace_ne_nil (host : AddMarkerHost) (f : ℤ) (c n nt : String) (d : ℤ) :
    (_add_marker_safe host f c n nt d).2 ≠ [] := by
  obtain ⟨tail, ht⟩ := ams_trace_head host f c n nt d
  simp [ht]

/-- Helper: every host call `_add_marker_safe` issues carries the clamped
duration. -/
theorem ams_trace_dur (host : AddMarkerHost) (f : ℤ) (c n nt : String) (d : ℤ) :
    ∀ a ∈ (_add_marker_safe host f c n nt d).2, a.durFrames = ensure_min_duration d := by
  intro a ha
  unfold _add_marker_safe at ha
  rcases h1 : host (AddAttempt.mk true f c n nt (ensure_min_duration d)) with _ | _ | _ <;>
    simp only [h1] at ha
  · simp at ha; simp [ha]
  · rcases h2 : _COLOR_FALLBACK c with _ | fb <;> simp only [h2] at ha
    · simp at ha; simp [ha]
    · rcases h3 : host (AddAttempt.mk true f fb n nt (ensure_min_duration d)) with _ | _ | _ <;>
        simp only [h3] at ha
      · rcases List.mem_cons.mp ha with h | h
        · simp [h]
        · simp at h; simp [h]
      · rcases List.mem_cons.mp ha with h | h
        · simp [h]
        · simp at h; simp [h]
      · obtain ⟨tail, ht, -, htd⟩ := ams5_trace_append host f c n nt (ensure_min_duration d)
          [AddAttempt.mk true f c n nt (ensure_min_duration d),
           AddAttempt.mk true f fb n nt (ensure_min_duration d)]
        rw [ht] at ha
        rcases List.mem_append.mp ha with h | h
        · rcases List.mem_cons.mp h with h' | h'
          · simp [h']
          · simp at h'; simp [h']
        · exact htd a h
  · obtain ⟨tail, ht, -, htd⟩ := ams5_trace_append host f c n nt (ensure_min_duration d)
      [AddAttempt.mk true f c n nt (ensure_min_duration d)]
    rw [ht] at ha
    rcases List.mem_append.mp ha with h | h
    · simp at h; simp [h]
    · exact htd a h

/-- Helper: every host call issued by the seeding loop carries a duration
of at least one frame. -/
theorem seed_loop_dur (host : AddMarkerHost) (fps : ℚ) :
    ∀ ms : List Marker, ∀ a ∈ (_seed_loop host fps ms).2, 1 ≤ a.durFrames := by
  intro ms
  induction ms with
  | nil => intro a ha; simp [_seed_loop] at ha
  | cons m rest ih =>
    intro a ha
    unfold _seed_loop at ha
    simp only [List.mem_append] at ha
    rcases ha with h | h
    · rw [ams_trace_dur host _ _ _ _ _ a h]
      exact ensure_min_duration_pos _
    · exact ih a h

/-- Helper: the seeding loop on a non-empty pack issues at least one call. -/
theorem seed_loop_ne_nil (host : AddMarkerHost) (fps : ℚ) (m : Marker) (rest : List Marker) :
    (_seed_loop host fps (m :: rest)).2 ≠ [] := by
  unfold _seed_loop
  simp only [ne_eq, List.append_eq_nil, not_and]
  intro h
  exact absurd h (ams_trace_ne_nil host _ _ _ _ _)

/-- Helper: the seeding loop attempts every marker of the pack: it issues
at least as many host calls as the pack has markers, whatever the host
answers. -/
theorem seed_loop_len (host : AddMarkerHost) (fps : ℚ) :
    ∀ ms : List Marker, ms.length ≤ (_seed_loop host fps ms).2.length := by
  intro ms
  induction ms with
  | nil => simp [_seed_loop]
  | cons m rest ih =>
    unfold _seed_loop
    simp only [List.length_cons, List.length_append]
    have h1 : 1 ≤ (_add_marker_safe host (_sec_to_frames m.t fps) (_seed_color m.color)
        m.name m.notes (if _sec_to_frames m.dur fps < 1 then 1 else _sec_to_frames m.dur fps)).2.length := by
      rcases hn : (_add_marker_safe host _ _ _ _ _).2 with _ | ⟨x, xs⟩
      · exact absurd hn (ams_trace_ne_nil host _ _ _ _ _)
      · simp
    omega

/-- C8: every `AddMarker` call emitted by the seeding path passes a
duration of at least one frame, whatever the timeline, host behaviour,
frame rate, pack (including declared durations of 0) and force flag. -/
theorem seed_min_duration_invariant (tl : Timeline) (host : AddMarkerHost)
    (fps_str : Option ℚ) (markers : List Marker) (force : Bool) :
    ∀ a ∈ (add_markers_to_timeline_if_empty tl host fps_str markers force).attempts,
      1 ≤ a.durFrames := by
  intro a ha
  simp only [add_markers_to_timeline_if_empty] at ha
  split at ha
  · simp at ha
  · split at ha
    · simp at ha
    · exact seed_loop_dur host _ _ a ha

/-- Helper evaluation fact for witnesses: the unsupported color "Magenta"
is normalised to "Pink" by the seeding path. -/
theorem seed_color_magenta_pink : _seed_color "Magenta" = "Pink" := rfl

/-- C8 witness: a marker declared with duration 0 on an empty timeline is
placed through a host call with duration exactly 1 frame. -/
theorem seed_min_duration_invariant_witness :
    AddAttempt.mk true 0 "Pink" "A" "x" 1 ∈
        (add_markers_to_timeline_if_empty tlGetMarkersRaises hostAllOk (some 30)
          [_mm 0 "Magenta" "A" 0 "x"] false).attempts ∧
      1 ≤ (AddAttempt.mk true 0 "Pink" "A" "x" 1).durFrames :=
  ⟨by norm_num [add_markers_to_timeline_if_empty, _count_markers, tlGetMarkersRaises, _seed_loop,
      _add_marker_safe, _add_marker_safe_5arg, ensure_min_duration, _sec_to_frames, _py_round,
      _py_floor, _fps_or_default, seed_color_magenta_pink, List.insertionSort, List.orderedInsert, markerGe,
      _mm, hostAllOk],
   seed_min_duration_invariant tlGetMarkersRaises hostAllOk (some 30)
     [_mm 0 "Magenta" "A" 0 "x"] false _
     (by norm_num [add_markers_to_timeline_if_empty, _count_markers, tlGetMarkersRaises, _seed_loop,
       _add_marker_safe, _add_marker_safe_5arg, ensure_min_duration, _sec_to_frames, _py_round,
       _py_floor, _fps_or_default, seed_color_magenta_pink, List.insertionSort, List.orderedInsert, markerGe,
       _mm, hostAllOk])⟩

/-- C9: when the host's marker enumeration raises or returns something
other than a dict or list, `_count_markers` reports 0, so the seeding with
`force=False` proceeds and issues host calls for a non-empty pack: the
skip guard only takes effect on a successfully reported nonzero count. -/
theorem count_markers_fail_open (tl : Timeline) (host : AddMarkerHost)
    (fps_str : Option ℚ) (markers : List Marker)
    (h : tl.getMarkers = .raises ∨ tl.getMarkers = .other) (hm : markers ≠ []) :
    _count_markers tl = 0 ∧
      (add_markers_to_timeline_if_empty tl host fps_str markers false).attempts ≠ [] := by
  have hc : _count_markers tl = 0 := by
    rcases h with h | h <;> simp [_count_markers, h]
  refine ⟨hc, ?_⟩
  simp only [add_markers_to_timeline_if_empty, hc]
  rw [if_neg (by simp)]
  rw [if_neg (show ¬ (markers.length = 0) by simpa using hm)]
  rcases hs : List.insertionSort markerGe markers with _ | ⟨m, rest⟩
  · exfalso
    apply hm
    have := List.length_insertionSort markerGe markers
    rw [hs] at this
    simpa using this.symm
  · simpa [hs] using seed_loop_ne_nil host (_fps_or_default fps_str) m rest

/-- C9 witness: a timeline whose `GetMarkers()` raises is seeded anyway. -/
theorem count_markers_fail_open_witness :
    (tlGetMarkersRaises.getMarkers = .raises ∨ tlGetMarkersRaises.getMarkers = .other) ∧
      ([_mm 0 "Magenta" "A" 0 "x"] : List Marker) ≠ [] ∧
      _count_markers tlGetMarkersRaises = 0 ∧
      (add_markers_to_timeline_if_empty tlGetMarkersRaises hostAllOk (some 30)
        [_mm 0 "Magenta" "A" 0 "x"] false).attempts ≠ [] :=
  ⟨Or.inl rfl, by simp,
    (count_markers_fail_open tlGetMarkersRaises hostAllOk (some 30)
      [_mm 0 "Magenta" "A" 0 "x"] (Or.inl rfl) (by simp)).1,
    (count_markers_fail_open tlGetMarkersRaises hostAllOk (some 30)
      [_mm 0 "Magenta" "A" 0 "x"] (Or.inl rfl) (by simp)).2⟩

/-- C5 counterexample: on a two-marker pack where every placement fails
(the host returns falsy on every call, and "Red" has no fallback color),
`add_markers_to_timeline_if_empty` still attempts both markers but records
nothing in the run-scoped error list: the outcome has `added = 0`, one
host call per marker, and an empty `errorsLogged` — placement failures are
only written to the log, never to `stats.errors`. -/
theorem marker_failure_not_recorded_counterexample :
    add_markers_to_timeline_if_empty tlNoMarkers hostAllFalsy (some 30) packTwoRed false =
      ⟨0, [⟨true, 90, "Red", "B", "y", 30⟩, ⟨true, 0, "Red", "A", "x", 30⟩], []⟩ := by
  have hred : _seed_color "Red" = "Red" := rfl
  have hfb : _COLOR_FALLBACK "Red" = none := rfl
  norm_num [add_markers_to_timeline_if_empty, _count_markers, tlNoMarkers, packTwoRed, _seed_loop,
    _add_marker_safe, _add_marker_safe_5arg, ensure_min_duration, _sec_to_frames, _py_round,
    _py_floor, _fps_or_default, hred, hfb, List.insertionSort, List.orderedInsert, markerGe,
    _mm, hostAllFalsy]

/-- C5 amended: whenever the seeding path runs (the skip guard does not
fire), every marker of the pack is attempted — the trace holds at least
one host call per marker, regardless of which placements fail — but a
failed placement is not recorded in the run-scoped error list: the
seeding path appends nothing to `stats.errors` on any input. -/
theorem seed_errors_empty_and_all_attempted (tl : Timeline) (host : AddMarkerHost)
    (fps_str : Option ℚ) (markers : List Marker) (force : Bool)
    (h : ¬ (0 < _count_markers tl ∧ force = false)) :
    markers.length ≤
        (add_markers_to_timeline_if_empty tl host fps_str markers force).attempts.length ∧
      (add_markers_to_timeline_if_empty tl host fps_str markers force).errorsLogged = [] := by
  simp only [add_markers_to_timeline_if_empty]
  rw [if_neg h]
  by_cases hl : markers.length = 0
  · rw [if_pos hl]
    simp [hl]
  · rw [if_neg hl]
    refine ⟨?_, rfl⟩
    calc markers.length = (List.insertionSort markerGe markers).length :=
        (List.length_insertionSort markerGe markers).symm
      _ ≤ _ := seed_loop_len host (_fps_or_default fps_str) _

/-- C5 witness: both markers of the all-failing pack are attempted and the
error list stays empty. -/
theorem seed_errors_empty_and_all_attempted_witness :
    ¬ (0 < _count_markers tlNoMarkers ∧ false = false) ∧
      packTwoRed.length ≤
        (add_markers_to_timeline_if_empty tlNoMarkers hostAllFalsy (some 30) packTwoRed false).attempts.length ∧
      (add_markers_to_timeline_if_empty tlNoMarkers hostAllFalsy (some 30) packTwoRed false).errorsLogged = [] :=
  ⟨by decide,
    (seed_errors_empty_and_all_attempted tlNoMarkers hostAllFalsy (some 30) packTwoRed false (by decide)).1,
    (seed_errors_empty_and_all_attempted tlNoMarkers hostAllFalsy (some 30) packTwoRed false (by decide)).2⟩

/-- C10: the seeding loop passes each marker to the placement wrapper with
the normalised color — the first host call for the head marker carries
`_seed_color` of its declared color — and the normalisation keeps a
supported color unchanged, replaces an unsupported color by its declared
fallback when one exists (Magenta becomes Pink), and by "Red" otherwise. -/
theorem seed_color_normalization (host : AddMarkerHost) (fps : ℚ) (m : Marker)
    (rest : List Marker) :
    (∃ tail, (_seed_loop host fps (m :: rest)).2 =
        AddAttempt.mk true (_sec_to_frames m.t fps) (_seed_color m.color) m.name m.notes
          (ensure_min_duration
            (if _sec_to_frames m.dur fps < 1 then 1 else _sec_to_frames m.dur fps)) :: tail) ∧
      (∀ c : String, _SUPPORTED_MARKER_COLORS.contains c = true → _seed_color c = c) ∧
      (∀ c fb : String, _SUPPORTED_MARKER_COLORS.contains c = false →
        _COLOR_FALLBACK c = some fb → _seed_color c = fb) ∧
      (∀ c : String, _SUPPORTED_MARKER_COLORS.contains c = false →
        _COLOR_FALLBACK c = none → _seed_color c = "Red") ∧
      _seed_color "Magenta" = "Pink" := by
  refine ⟨?_, ?_, ?_, ?_, rfl⟩
  · obtain ⟨tail, ht⟩ := ams_trace_head host (_sec_to_frames m.t fps) (_seed_color m.color)
      m.name m.notes (if _sec_to_frames m.dur fps < 1 then 1 else _sec_to_frames m.dur fps)
    refine ⟨tail ++ (_seed_loop host fps rest).2, ?_⟩
    simp only [_seed_loop]
    rw [ht]
    simp
  · intro c hc
    simp at hc
    simp [_seed_color, hc]
  · intro c fb hc hfb
    simp at hc
    simp [_seed_color, hc, hfb]
  · intro c hc hfb
    simp at hc
    simp [_seed_color, hc, hfb]

/-- C10 witness: on a concrete Magenta marker the first host call of the
seeding loop carries the Pink fallback color. -/
theorem seed_color_normalization_witness :
    (∃ tail, (_seed_loop hostAllOk 30 [_mm 0 "Magenta" "A" 0 "x"]).2 =
        AddAttempt.mk true (_sec_to_frames (_mm 0 "Magenta" "A" 0 "x").t 30)
          (_seed_color (_mm 0 "Magenta" "A" 0 "x").color) (_mm 0 "Magenta" "A" 0 "x").name
          (_mm 0 "Magenta" "A" 0 "x").notes
          (ensure_min_duration
            (if _sec_to_frames (_mm 0 "Magenta" "A" 0 "x").dur 30 < 1 then 1
             else _sec_to_frames (_mm 0 "Magenta" "A" 0 "x").dur 30)) :: tail) ∧
      _seed_color "Magenta" = "Pink" :=
  ⟨(seed_color_normalization hostAllOk 30 (_mm 0 "Magenta" "A" 0 "x") []).1,
    (seed_color_normalization hostAllOk 30 (_mm 0 "Magenta" "A" 0 "x") []).2.2.2.2⟩

/-- Helper: reading one kind after replacing another. -/
theorem ofKind_setKind (ts : TracksState) (k : TrackKind) (l : List String) (k' : TrackKind) :
    (ts.setKind k l).ofKind k' = if k' = k then l else ts.ofKind k' := by
  cases k <;> cases k' <;> simp [TracksState.setKind, TracksState.ofKind]

/-- Helper: the rename loop never changes how many tracks there are. -/
theorem rename_loop_length (host : TrackHost) (kind : TrackKind) :
    ∀ (labels : List String) (i : ℕ) (ts : List String),
      (_rename_tracks_loop host kind i labels ts).length = ts.length := by
  intro labels
  induction labels with
  | nil => intro i ts; rfl
  | cons l rest ih =>
    intro i ts
    unfold _rename_tracks_loop
    rw [ih]
    split <;> simp

/-- Helper: the rename loop starting at 1-based index `i` leaves every
0-based position at or beyond `i - 1 + labels.length` untouched. -/
theorem rename_loop_get_ge (host : TrackHost) (kind : TrackKind) :
    ∀ (labels : List String) (i : ℕ) (ts : List String) (j : ℕ),
      i - 1 + labels.length ≤ j →
      (_rename_tracks_loop host kind i labels ts)[j]? = ts[j]? := by
  intro labels
  induction labels with
  | nil => intro i ts j _; rfl
  | cons l rest ih =>
    intro i ts j hj
    unfold _rename_tracks_loop
    simp only [List.length_cons] at hj
    rw [ih (i + 1) _ j (by omega)]
    split
    · rfl
    · exact List.getElem?_set_ne (by omega)

/-- Helper: the add loop only ever appends tracks, so no kind's count
decreases, whatever calls fail. -/
theorem add_loop_ofKind_len_ge (host : TrackHost) (kind : TrackKind) :
    ∀ (n i : ℕ) (ts : TracksState) (es : List String) (c : ℕ) (k' : TrackKind),
      (ts.ofKind k').length ≤ ((_add_tracks_loop host kind n i ts es c).1.ofKind k').length := by
  intro n
  induction n with
  | zero => intro i ts es c k'; exact le_refl _
  | succ n ih =>
    intro i ts es c k'
    unfold _add_tracks_loop
    split
    · exact ih _ _ _ _ _
    · refine le_trans ?_ (ih _ _ _ _ k')
      rw [ofKind_setKind]
      split
      · rename_i hk
        subst hk
        simp
      · exact le_refl _

/-- Helper: `ensure_tracks_named` never removes a track of any kind, on
any timeline, declared labels, host behaviour or kind argument. -/
theorem ensure_tracks_len_ge (tl : TracksState) (host : TrackHost) (kind : TrackKind)
    (ttb ltr es : List String) (k' : TrackKind) :
    (tl.ofKind k').length ≤ ((ensure_tracks_named tl host kind ttb ltr es).1.ofKind k').length := by
  simp only [ensure_tracks_named]
  split
  · rcases hts : (_add_tracks_loop host kind
        (ttb.reverse.length - if host.countRaises kind = true then 0 else (tl.ofKind kind).length)
        0 tl es 0).1 with ⟨v, a, s⟩
    have hbase := add_loop_ofKind_len_ge host kind
      (ttb.reverse.length - if host.countRaises kind = true then 0 else (tl.ofKind kind).length)
      0 tl es 0 k'
    rw [hts] at hbase
    refine le_trans hbase ?_
    cases k' <;> simp [TracksState.setKind, TracksState.ofKind, rename_loop_length]
  · rcases hts : (_add_tracks_loop host kind
        (ltr.length - if host.countRaises kind = true then 0 else (tl.ofKind kind).length)
        0 tl es 0).1 with ⟨v, a, s⟩
    have hbase := add_loop_ofKind_len_ge host kind
      (ltr.length - if host.countRaises kind = true then 0 else (tl.ofKind kind).length)
      0 tl es 0 k'
    rw [hts] at hbase
    refine le_trans hbase ?_
    cases k' <;>
      simp only [TracksState.setKind, TracksState.ofKind] <;>
      (repeat' split) <;>
      simp [rename_loop_length, List.length_set]

/-- C6: `ensure_tracks_named` never removes a track; when the host reports
the current video-track count correctly and it is at least the declared
label count, the count stays exactly the same and only the first
`len(declared)` tracks are renamed (every later position keeps its name);
and for every timeline, host and kind, no kind's track count decreases. -/
theorem ensure_tracks_never_shrinks (tl : TracksState) (host : TrackHost)
    (ttb ltr errors0 : List String)
    (hc : host.countRaises .video = false) (hlen : ttb.length ≤ tl.video.length) :
    ((ensure_tracks_named tl host .video ttb ltr errors0).1.video.length = tl.video.length) ∧
      (∀ j, ttb.length ≤ j →
        (ensure_tracks_named tl host .video ttb ltr errors0).1.video[j]? = tl.video[j]?) ∧
      (∀ (tl2 : TracksState) (host2 : TrackHost) (kind : TrackKind)
          (decl decl2 es2 : List String) (k' : TrackKind),
        (tl2.ofKind k').length ≤
          ((ensure_tracks_named tl2 host2 kind decl decl2 es2).1.ofKind k').length) := by
  have h0 : ttb.length - tl.video.length = 0 := by
    omega
  refine ⟨?_, ?_, fun tl2 host2 kind decl decl2 es2 k' =>
    ensure_tracks_len_ge tl2 host2 kind decl decl2 es2 k'⟩
  · simp [ensure_tracks_named, hc, TracksState.ofKind, h0, _add_tracks_loop,
      TracksState.setKind, rename_loop_length]
  · intro j hj
    simp [ensure_tracks_named, hc, TracksState.ofKind, h0, _add_tracks_loop, TracksState.setKind]
    exact rename_loop_get_ge host .video ttb.reverse 1 tl.video j (by simpa using hj)

/-- C6 witness: a timeline with 12 video tracks and 10 declared labels
still has exactly 12 video tracks afterwards, and track 11 (0-based index
10) keeps its prior name. -/
theorem ensure_tracks_never_shrinks_witness :
    labelsTen.length ≤ tracksTwelve.video.length ∧
      (ensure_tracks_named tracksTwelve benignTrackHost .video labelsTen [] []).1.video.length =
        tracksTwelve.video.length ∧
      (ensure_tracks_named tracksTwelve benignTrackHost .video labelsTen [] []).1.video[10]? =
        tracksTwelve.video[10]? :=
  ⟨by decide,
    (ensure_tracks_never_shrinks tracksTwelve benignTrackHost labelsTen [] []
      (by decide) (by decide)).1,
    (ensure_tracks_never_shrinks tracksTwelve benignTrackHost labelsTen [] []
      (by decide) (by decide)).2.1 10 (by decide)⟩

/-- Helper: the butt-join adjustment never changes a marker's time. -/
theorem butt_adjust_t (fps : ℚ) (a b : Marker) : (_butt_adjust fps a b).t = a.t := by
  simp only [_butt_adjust]
  split
  · rfl
  · split <;> rfl

/-- Helper: the butt-join pass preserves the sequence of marker times. -/
theorem bjp_map_t (fps : ℚ) : ∀ l : List Marker,
    (_butt_join_pairs fps l).map (fun m => m.t) = l.map (fun m => m.t) := by
  intro l
  induction l with
  | nil => rfl
  | cons a l' ih =>
    cases l' with
    | nil => rfl
    | cons b rest =>
      show (_butt_adjust fps a b :: _butt_join_pairs fps (b :: rest)).map _ = _
      simp only [List.map_cons, butt_adjust_t, ih]

/-- Helper: the butt-join pass preserves the number of markers. -/
theorem bjp_length (fps : ℚ) (l : List Marker) :
    (_butt_join_pairs fps l).length = l.length := by
  have h := congrArg List.length (bjp_map_t fps l)
  simpa using h

/-- Helper: the butt-join pass maps a non-empty list to a non-empty list
whose head keeps its time. -/
theorem bjp_cons_head (fps : ℚ) (b : Marker) (rest : List Marker) :
    ∃ b2 rest2, _butt_join_pairs fps (b :: rest) = b2 :: rest2 ∧ b2.t = b.t := by
  cases rest with
  | nil => exact ⟨b, [], rfl, rfl⟩
  | cons c rest' => exact ⟨_butt_adjust fps b c, _, rfl, butt_adjust_t fps b c⟩

/-- Helper: the butt-join pass keeps a time-sorted list time-sorted. -/
theorem bjp_sorted (fps : ℚ) (l : List Marker) (h : List.Sorted markerLe l) :
    List.Sorted markerLe (_butt_join_pairs fps l) := by
  have h1 : List.Pairwise (fun x y : ℚ => x ≤ y) (l.map (fun m => m.t)) :=
    List.pairwise_map.mpr h
  rw [← bjp_map_t fps l] at h1
  exact (@List.pairwise_map Marker ℚ (fun m => m.t) (fun x y => x ≤ y)
    (_butt_join_pairs fps l)).mp h1

/-- Helper: once a pair satisfies the small-gap condition, adjusting the
already-adjusted earlier marker against any marker at the same time as
the old successor changes nothing: the gap is now closed (or was never
positive). -/
theorem butt_adjust_stable (fps : ℚ) (a b nxt : Marker)
    (h : _small_gap fps a b) (hn : nxt.t = b.t) :
    _butt_adjust fps (_butt_adjust fps a b) nxt = _butt_adjust fps a b := by
  unfold _small_gap at h
  simp only [_butt_adjust]
  by_cases hd : a.dur ≤ 0
  · simp [hd]
  · rw [if_neg hd]
    by_cases hg : 0 < b.t - (a.t + a.dur)
    · rw [if_pos hg]
      have hgle : b.t - (a.t + a.dur) ≤ 1 / fps := by
        rcases h with h | h
        · exact absurd h hd
        · exact h
      have hmin : min (b.t - (a.t + a.dur)) (1 / fps) = b.t - (a.t + a.dur) :=
        min_eq_left hgle
      rw [hmin]
      have hd2 : ¬ (a.dur + (b.t - (a.t + a.dur)) ≤ 0) := by
        push_neg at hd ⊢
        linarith
      rw [if_neg hd2]
      have hg2 : ¬ (0 < nxt.t - (a.t + (a.dur + (b.t - (a.t + a.dur))))) := by
        rw [hn]
        intro hcon
        simp at hcon
        linarith
      rw [if_neg hg2]
    · rw [if_neg hg, if_neg hd, hn, if_neg hg]

/-- Helper: on a list whose adjacent pairs all satisfy the small-gap
condition, a second butt-join pass is the identity. -/
theorem bjp_idempotent (fps : ℚ) : ∀ l : List Marker,
    List.Chain' (_small_gap fps) l →
    _butt_join_pairs fps (_butt_join_pairs fps l) = _butt_join_pairs fps l := by
  intro l
  induction l with
  | nil => intro _; rfl
  | cons a l' ih =>
    intro hch
    cases l' with
    | nil => rfl
    | cons b rest =>
      rw [List.chain'_cons] at hch
      obtain ⟨b2, rest2, heq, hb2t⟩ := bjp_cons_head fps b rest
      have hrec : _butt_join_pairs fps (b2 :: rest2) = b2 :: rest2 := by
        rw [← heq]
        exact ih hch.2
      show _butt_join_pairs fps (_butt_adjust fps a b :: _butt_join_pairs fps (b :: rest)) =
        _butt_adjust fps a b :: _butt_join_pairs fps (b :: rest)
      rw [heq]
      show _butt_adjust fps (_butt_adjust fps a b) b2 :: _butt_join_pairs fps (b2 :: rest2) =
        _butt_adjust fps a b :: (b2 :: rest2)
      rw [hrec, butt_adjust_stable fps a b b2 hch.1 hb2t]

/-- Helper: the adjustment never creates an overlap that was not already
there: extension is by at most the gap. -/
theorem butt_adjust_no_overlap (fps : ℚ) (a b nxt : Marker)
    (h : _no_overlap a b) (hn : nxt.t = b.t) :
    _no_overlap (_butt_adjust fps a b) nxt := by
  unfold _no_overlap at h ⊢
  simp only [_butt_adjust]
  by_cases hd : a.dur ≤ 0
  · rw [if_pos hd, hn]
    exact h
  · rw [if_neg hd]
    by_cases hg : 0 < b.t - (a.t + a.dur)
    · rw [if_pos hg]
      intro _
      have hmin : min (b.t - (a.t + a.dur)) (1 / fps) ≤ b.t - (a.t + a.dur) :=
        min_le_left _ _
      simp only [hn]
      linarith
    · rw [if_neg hg, hn]
      exact h

/-- Helper: the butt-join pass preserves the no-overlap chain. -/
theorem bjp_no_overlap (fps : ℚ) : ∀ l : List Marker,
    List.Chain' _no_overlap l → List.Chain' _no_overlap (_butt_join_pairs fps l) := by
  intro l
  induction l with
  | nil => intro _; exact List.chain'_nil
  | cons a l' ih =>
    intro hch
    cases l' with
    | nil => simp [_butt_join_pairs]
    | cons b rest =>
      rw [List.chain'_cons] at hch
      obtain ⟨b2, rest2, heq, hb2t⟩ := bjp_cons_head fps b rest
      show List.Chain' _no_overlap (_butt_adjust fps a b :: _butt_join_pairs fps (b :: rest))
      rw [heq, List.chain'_cons]
      refine ⟨butt_adjust_no_overlap fps a b b2 hch.1 hb2t, ?_⟩
      rw [← heq]
      exact ih hch.2

/-- C2 amended: `_butt_join_markers` is a fixed point after one application
for packs in which every adjacent pair of the time-sorted order has a
point-duration earlier marker or a gap of at most one frame; a larger gap
is narrowed by only one frame per application, so the unrestricted claim
fails. -/
theorem butt_join_idempotent_on_small_gaps (fps_str : Option ℚ) (ms : List Marker)
    (h : List.Chain' (_small_gap (_fps_or_default fps_str)) (List.insertionSort markerLe ms)) :
    _butt_join_markers fps_str (_butt_join_markers fps_str ms) = _butt_join_markers fps_str ms := by
  simp only [_butt_join_markers]
  by_cases hms : ms.isEmpty
  · simp [hms]
  · rw [if_neg hms]
    have hne : (_butt_join_pairs (_fps_or_default fps_str) (List.insertionSort markerLe ms)).isEmpty = false := by
      have hlen := bjp_length (_fps_or_default fps_str) (List.insertionSort markerLe ms)
      rw [List.length_insertionSort] at hlen
      rcases hbm : _butt_join_pairs (_fps_or_default fps_str) (List.insertionSort markerLe ms) with _ | ⟨x, xs⟩
      · exfalso
        rw [hbm] at hlen
        simp only [List.length_nil] at hlen
        apply hms
        have hms2 : ms = [] := List.length_eq_zero.mp hlen.symm
        rw [hms2]
        rfl
      · rfl
    rw [if_neg (show ¬ ((_butt_join_pairs (_fps_or_default fps_str)
      (List.insertionSort markerLe ms)).isEmpty = true) by simp [hne])]
    rw [List.Sorted.insertionSort_eq
      (bjp_sorted (_fps_or_default fps_str) _ (List.sorted_insertionSort markerLe ms))]
    exact bjp_idempotent (_fps_or_default fps_str) _ h

/-- C3 amended: butt-join never causes overlap — if the time-sorted input
pack has no overlapping adjacent pair, neither does the output; an input
pair already overlapping is passed through unchanged, so the unrestricted
claim fails on MARKERS_12. -/
theorem butt_join_never_causes_overlap (fps_str : Option ℚ) (ms : List Marker)
    (h : List.Chain' _no_overlap (List.insertionSort markerLe ms)) :
    List.Chain' _no_overlap (_butt_join_markers fps_str ms) := by
  simp only [_butt_join_markers]
  by_cases hms : ms.isEmpty
  · rw [if_pos hms]
    rw [List.isEmpty_iff] at hms
    subst hms
    exact List.chain'_nil
  · rw [if_neg hms]
    exact bjp_no_overlap (_fps_or_default fps_str) _ h

/-- C2 counterexample: on a two-marker pack with a 2-second gap at 30 fps,
applying `_butt_join_markers` twice extends the first marker's duration by
a second frame, so the double application differs from the single one. -/
theorem butt_join_twice_differs_counterexample :
    _butt_join_markers (some 30) (_butt_join_markers (some 30) packWideGap) ≠
      _butt_join_markers (some 30) packWideGap := by
  norm_num [packWideGap, _butt_join_markers, _fps_or_default, _butt_join_pairs, _butt_adjust,
    List.insertionSort, List.orderedInsert, markerLe, _mm]

/-- C2 witness: a touching pack (gap 0 everywhere) satisfies the
small-gap condition and butt-join is idempotent on it. -/
theorem butt_join_idempotent_on_small_gaps_witness :
    List.Chain' (_small_gap (_fps_or_default (some 30)))
        (List.insertionSort markerLe packTouching) ∧
      _butt_join_markers (some 30) (_butt_join_markers (some 30) packTouching) =
        _butt_join_markers (some 30) packTouching :=
  ⟨by norm_num [packTouching, _small_gap, _fps_or_default, List.insertionSort,
      List.orderedInsert, markerLe, _mm, List.chain'_cons, List.chain'_singleton],
   butt_join_idempotent_on_small_gaps (some 30) packTouching
     (by norm_num [packTouching, _small_gap, _fps_or_default, List.insertionSort,
       List.orderedInsert, markerLe, _mm, List.chain'_cons, List.chain'_singleton])⟩

/-- C3 counterexample: on the repository's own MARKERS_12 pack at 29.97
fps, the butt-join output contains an adjacent pair with a.t < b.t and
a.t + a.dur > b.t (DRAW at 3s with duration 5 overlaps INTERRUPT #1 at
4.5s), so the output is not overlap-free. -/
theorem butt_join_overlap_counterexample :
    ¬ List.Chain' _no_overlap (_butt_join_markers (some (2997/100)) MARKERS_12) := by
  norm_num [MARKERS_12, _butt_join_markers, _fps_or_default, _butt_join_pairs, _butt_adjust,
    List.insertionSort, List.orderedInsert, markerLe, _mm, List.chain'_cons, _no_overlap]

/-- C3 witness: a non-overlapping spaced pack stays non-overlapping
through butt-join. -/
theorem butt_join_never_causes_overlap_witness :
    List.Chain' _no_overlap (List.insertionSort markerLe packSpaced) ∧
      List.Chain' _no_overlap (_butt_join_markers (some 30) packSpaced) :=
  ⟨by norm_num [packSpaced, _no_overlap, List.insertionSort, List.orderedInsert, markerLe,
      _mm, List.chain'_cons, List.chain'_singleton],
   butt_join_never_causes_overlap (some 30) packSpaced
     (by norm_num [packSpaced, _no_overlap, List.insertionSort, List.orderedInsert, markerLe,
       _mm, List.chain'_cons, List.chain'_singleton])⟩
